import Mathlib

/-!
Verification development for the openGLTest repository (src/main.cpp): a
single-threaded GLFW/OpenGL program that opens a window, uploads one
triangle, and renders it rotating until the window is asked to close.

The embedding below translates main.cpp into Lean:
  - GLFW constants and the window close flag (`Window`);
  - the key callback (`key_callback`, main.cpp lines 56-60);
  - the per-frame computations of the render loop (aspect ratio, model /
    projection / MVP matrices, main.cpp lines 137-164), with C floats
    idealised as real numbers;
  - the order of GL / GLFW calls inside one loop iteration (`frameOps`);
  - the control flow of `main` (initialisation checks, the while loop,
    the exit status), driven by an environment `Env` that supplies the
    outcomes of the external calls and the per-frame inputs.

main.cpp includes linmath.h, which is not part of this repository's
sources; the matrix helpers it provides (mat4x4_identity, mat4x4_rotate_Z,
mat4x4_ortho, mat4x4_mul) are modelled from the specification's
description of steps 5-7 of the render loop.
-/

namespace OpenGLTest

/-- GLFW key code for the Escape key (GLFW_KEY_ESCAPE). -/
def GLFW_KEY_ESCAPE : Int := 256

/-- GLFW action code for a key press (GLFW_PRESS). -/
def GLFW_PRESS : Int := 1

/-- C standard successful exit status (EXIT_SUCCESS). -/
def EXIT_SUCCESS : Nat := 0

/-- C standard failure exit status (EXIT_FAILURE). -/
def EXIT_FAILURE : Nat := 1

/-- The piece of GLFW window state the program interacts with: the
window-should-close flag, initially false after glfwCreateWindow. -/
structure Window where
  shouldClose : Bool
deriving DecidableEq

/-- glfwSetWindowShouldClose: overwrite the close flag. -/
def glfwSetWindowShouldClose (w : Window) (value : Bool) : Window :=
  { w with shouldClose := value }

/-- glfwWindowShouldClose: read the close flag. -/
def glfwWindowShouldClose (w : Window) : Bool :=
  w.shouldClose

/-- key_callback (main.cpp lines 56-60): if the key is Escape and the
action is a press, set the window's close flag to GLFW_TRUE; otherwise do
nothing. scancode and mods are ignored by the code. -/
def key_callback (w : Window) (key _scancode action _mods : Int) : Window :=
  if key = GLFW_KEY_ESCAPE ∧ action = GLFW_PRESS then
    glfwSetWindowShouldClose w true
  else
    w

/-- One key event delivered by glfwPollEvents: the arguments GLFW passes
to the installed key callback. -/
structure KeyEvent where
  key : Int
  scancode : Int
  action : Int
  mods : Int
deriving DecidableEq

/-- The external inputs one iteration of the render loop observes:
the framebuffer size reported by glfwGetFramebufferSize, the time
reported by glfwGetTime, the key events glfwPollEvents delivers to the
key callback, and whether the windowing layer itself requests a close
(e.g. the user clicking the window's close button) during that poll. -/
structure FrameInput where
  width : Int
  height : Int
  time : ℝ
  events : List KeyEvent
  osClose : Bool

/-- glfwPollEvents for one iteration: each pending key event invokes
key_callback synchronously; an OS-level close request sets the close
flag (this is what GLFW itself does for a window-close event). -/
def pollEvents (w : Window) (input : FrameInput) : Window :=
  let w1 := input.events.foldl
    (fun acc e => key_callback acc e.key e.scancode e.action e.mods) w
  if input.osClose then glfwSetWindowShouldClose w1 true else w1

/-- The GL / GLFW calls one iteration of the render loop issues, in
program order (main.cpp lines 137-164). vertexAttribPointer appears only
in setup, never in the loop. -/
inductive GLOp where
  | getFramebufferSize
  | viewport (x y w h : Int)
  | clear
  | useProgram
  | uploadMVP
  | bindVertexArray
  | drawArrays (first count : Int)
  | swapBuffers
  | pollEvents
  | vertexAttribPointer (location : Int) (size stride offset : Nat)
deriving DecidableEq

/-- The calls of one render-loop iteration, in the order main.cpp issues
them (lines 138-163): query framebuffer size, set viewport, clear,
activate the program, upload the MVP uniform, bind the vertex array,
draw, swap buffers, and poll events last. -/
def frameOps (input : FrameInput) : List GLOp :=
  [ GLOp.getFramebufferSize,
    GLOp.viewport 0 0 input.width input.height,
    GLOp.clear,
    GLOp.useProgram,
    GLOp.uploadMVP,
    GLOp.bindVertexArray,
    GLOp.drawArrays 0 3,
    GLOp.swapBuffers,
    GLOp.pollEvents ]

/-- The render loop (main.cpp lines 137-164): while the close flag is
unset, run one iteration (whose only effect on program state is the
event poll at its end). The loop is driven by a finite script of frame
inputs; it returns the list of inputs whose iterations actually executed
together with the final window state. An empty remaining script models
cutting the observation short while the loop is still running. -/
def runLoop : Window → List FrameInput → List FrameInput × Window
  | w, [] => ([], w)
  | w, input :: rest =>
    if glfwWindowShouldClose w then ([], w)
    else
      let w1 := pollEvents w input
      let r := runLoop w1 rest
      (input :: r.1, r.2)

/-- A 4x4 matrix over the reals (C floats idealised as reals). -/
abbrev Mat4 : Type := Matrix (Fin 4) (Fin 4) ℝ

/-- Modelled from the spec: linmath.h is not under src/. mat4x4_identity
sets its argument to the identity matrix (spec step 5: the model matrix
starts from the identity). -/
def mat4x4_identity : Mat4 := 1

/-- Modelled from the spec: linmath.h is not under src/. The rotation
about the Z axis by a given angle (spec step 5: identity rotated about
the Z axis by an angle equal to elapsed seconds), acting on column
vectors as the shader applies MVP * vec4(pos, 0, 1). -/
noncomputable def rotZ (angle : ℝ) : Mat4 :=
  !![Real.cos angle, -Real.sin angle, 0, 0;
     Real.sin angle,  Real.cos angle, 0, 0;
     0, 0, 1, 0;
     0, 0, 0, 1]

/-- Modelled from the spec: linmath.h is not under src/.
mat4x4_rotate_Z(Q, M, angle) post-multiplies M by the Z rotation. In the
render loop M is the identity, so the model matrix is the pure rotation. -/
noncomputable def mat4x4_rotate_Z (M : Mat4) (angle : ℝ) : Mat4 :=
  M * rotZ angle

/-- Modelled from the spec: linmath.h is not under src/. The standard
OpenGL orthographic projection with extents [l, r] x [b, t] and
near / far planes n / f (spec step 6). -/
noncomputable def mat4x4_ortho (l r b t n f : ℝ) : Mat4 :=
  !![2 / (r - l), 0, 0, -(r + l) / (r - l);
     0, 2 / (t - b), 0, -(t + b) / (t - b);
     0, 0, -2 / (f - n), -(f + n) / (f - n);
     0, 0, 0, 1]

/-- A framebuffer size as returned by glfwGetFramebufferSize. -/
structure Framebuffer where
  width : Int
  height : Int
deriving DecidableEq

/-- The aspect ratio computed each frame (main.cpp line 142):
ratio = width / (float)height, with no guard against height = 0. -/
noncomputable def frameRatio (fb : Framebuffer) : ℝ :=
  (fb.width : ℝ) / (fb.height : ℝ)

/-- The model matrix of one frame (main.cpp lines 152-153):
mat4x4_identity then mat4x4_rotate_Z by the elapsed time. -/
noncomputable def frameModel (t : ℝ) : Mat4 :=
  mat4x4_rotate_Z mat4x4_identity t

/-- The projection matrix of one frame (main.cpp line 154):
mat4x4_ortho(p, -ratio, ratio, -1, 1, 1, -1). -/
noncomputable def frameProjection (fb : Framebuffer) : Mat4 :=
  mat4x4_ortho (-(frameRatio fb)) (frameRatio fb) (-1) 1 1 (-1)

/-- The matrix uploaded to the MVP uniform in one frame (main.cpp lines
155 and 158): mvp = p * m, computed from that frame's framebuffer size
and time. -/
noncomputable def frameMVP (input : FrameInput) : Mat4 :=
  frameProjection ⟨input.width, input.height⟩ * frameModel input.time

/-- The sequence of matrices uploaded to the MVP uniform across the
iterations the render loop actually executes. -/
noncomputable def uploadedMVPs (w : Window) (inputs : List FrameInput) :
    List Mat4 :=
  (runLoop w inputs).1.map frameMVP

/-- Byte size of a C float (GL_FLOAT). -/
def floatSize : Nat := 4

/-- sizeof(Vertex) for the struct at main.cpp lines 13-17:
{ vec2 pos; vec3 col } is five consecutive floats (all members have float
alignment, so the struct has no padding). -/
def sizeof_Vertex : Nat := 5 * floatSize

/-- offsetof(Vertex, pos): pos is the first member. -/
def offsetof_pos : Nat := 0

/-- offsetof(Vertex, col): col follows the two floats of pos. -/
def offsetof_col : Nat := 2 * floatSize

/-- The vertex-attribute configuration calls of setup (main.cpp lines
129-134): glVertexAttribPointer(vpos_location, 2, GL_FLOAT, GL_FALSE,
sizeof(Vertex), offsetof(Vertex, pos)) and
glVertexAttribPointer(vcol_location, 3, GL_FLOAT, GL_FALSE,
sizeof(Vertex), offsetof(Vertex, col)). The attribute locations come
from glGetAttribLocation and are parameters here. -/
def attribSetupOps (vpos_location vcol_location : Int) : List GLOp :=
  [ GLOp.vertexAttribPointer vpos_location 2 sizeof_Vertex offsetof_pos,
    GLOp.vertexAttribPointer vcol_location 3 sizeof_Vertex offsetof_col ]

/-- The outcomes of the external calls main makes, plus the script of
per-frame inputs. gladLoadOk is the success of gladLoadGL, and
shaderCompileOk / linkOk the success of the glCompileShader and
glLinkProgram calls; main.cpp never reads any of these three results
(its comment: OpenGL error checks have been omitted for brevity). -/
structure Env where
  glfwInitOk : Bool
  createWindowOk : Bool
  gladLoadOk : Bool
  shaderCompileOk : Bool
  linkOk : Bool
  frames : List FrameInput

/-- main (main.cpp lines 62-174): exit EXIT_FAILURE if glfwInit fails;
exit EXIT_FAILURE (after glfwTerminate) if glfwCreateWindow fails;
otherwise run setup (gladLoadGL's result ignored, shader compile / link
status never checked) and enter the render loop with the close flag
unset. Returns some code when the program exits within the script:
EXIT_SUCCESS when the loop ended with the close flag set; none when the
script ran out while the loop was still running. -/
def main (env : Env) : Option Nat :=
  if ¬ env.glfwInitOk then some EXIT_FAILURE
  else if ¬ env.createWindowOk then some EXIT_FAILURE
  else
    let w : Window := { shouldClose := false }
    let r := runLoop w env.frames
    if glfwWindowShouldClose r.2 then some EXIT_SUCCESS else none

/-- Helper: the key callback never clears an already-set close flag. -/
theorem key_callback_mono (w : Window) (key scancode action mods : Int)
    (h : w.shouldClose = true) :
    (key_callback w key scancode action mods).shouldClose = true := by
  unfold key_callback glfwSetWindowShouldClose
  split <;> simp [h]

/-- Helper: folding the key callback over a list of events never clears
an already-set close flag. -/
theorem foldl_key_callback_mono (events : List KeyEvent) (w : Window)
    (h : w.shouldClose = true) :
    (events.foldl
      (fun acc e => key_callback acc e.key e.scancode e.action e.mods)
      w).shouldClose = true := by
  induction events generalizing w with
  | nil => exact h
  | cons e rest ih => exact ih _ (key_callback_mono _ _ _ _ _ h)

/-- Helper: event polling never clears an already-set close flag. -/
theorem pollEvents_mono (w : Window) (input : FrameInput)
    (h : w.shouldClose = true) :
    (pollEvents w input).shouldClose = true := by
  unfold pollEvents glfwSetWindowShouldClose
  split <;> simp [foldl_key_callback_mono _ _ h]

/-- Helper: with the close flag set, the loop executes no iteration and
leaves the window unchanged. -/
theorem runLoop_closed (w : Window) (inputs : List FrameInput)
    (h : w.shouldClose = true) :
    runLoop w inputs = ([], w) := by
  cases inputs with
  | nil => rfl
  | cons i rest => simp [runLoop, glfwWindowShouldClose, h]

/-- C2: for every invocation of the key callback, if the key is Escape
and the action is a press, the window close flag is set to true; any
other key / action combination leaves the window state unchanged. -/
theorem key_callback_escape_press (w : Window) (key scancode action mods : Int) :
    (key = GLFW_KEY_ESCAPE ∧ action = GLFW_PRESS →
      (key_callback w key scancode action mods).shouldClose = true) ∧
    (¬ (key = GLFW_KEY_ESCAPE ∧ action = GLFW_PRESS) →
      key_callback w key scancode action mods = w) := by
  constructor
  · intro h
    unfold key_callback
    rw [if_pos h]
    rfl
  · intro h
    unfold key_callback
    rw [if_neg h]

/-- Witness for C2: pressing Escape (key 256, action 1) sets the flag;
pressing the A key (key 65) leaves the window unchanged. -/
theorem key_callback_escape_press_witness :
    (key_callback ⟨false⟩ 256 0 1 0).shouldClose = true ∧
    key_callback ⟨false⟩ 65 0 1 0 = ⟨false⟩ :=
  ⟨(key_callback_escape_press ⟨false⟩ 256 0 1 0).1 (by exact ⟨rfl, rfl⟩),
   (key_callback_escape_press ⟨false⟩ 65 0 1 0).2 (by simp [GLFW_KEY_ESCAPE])⟩

/-- C10: the close flag is monotone: the key callback either leaves the
flag as it was or writes true, event polling never clears a set flag,
and once the flag is true the loop executes no further iteration and the
window state is final. -/
theorem close_flag_monotone :
    (∀ w : Window, ∀ key scancode action mods : Int,
      (key_callback w key scancode action mods).shouldClose = w.shouldClose ∨
      (key_callback w key scancode action mods).shouldClose = true) ∧
    (∀ (w : Window) (input : FrameInput),
      w.shouldClose = true → (pollEvents w input).shouldClose = true) ∧
    (∀ (w : Window) (inputs : List FrameInput),
      w.shouldClose = true → runLoop w inputs = ([], w)) := by
  refine ⟨?_, ?_, ?_⟩
  · intro w key scancode action mods
    unfold key_callback glfwSetWindowShouldClose
    split
    · right; rfl
    · left; rfl
  · intro w input h
    exact pollEvents_mono w input h
  · intro w inputs h
    exact runLoop_closed w inputs h

/-- Witness for C10: with the flag already set, an Escape press keeps it
set, polling keeps it set, and the loop executes no iteration. -/
theorem close_flag_monotone_witness :
    (pollEvents ⟨true⟩ ⟨640, 480, 0, [], false⟩).shouldClose = true ∧
    runLoop ⟨true⟩ [⟨640, 480, 0, [], false⟩] = ([], ⟨true⟩) :=
  ⟨close_flag_monotone.2.1 ⟨true⟩ ⟨640, 480, 0, [], false⟩ rfl,
   close_flag_monotone.2.2 ⟨true⟩ [⟨640, 480, 0, [], false⟩] rfl⟩

/-- C9 counterexample: in the order main.cpp issues the calls of one
iteration, event polling is the last call, not the first, and the buffer
swap is second-to-last, not last. -/
theorem frame_order_cex :
    ¬ ((frameOps ⟨640, 480, 0, [], false⟩).head? = some GLOp.pollEvents ∧
       (frameOps ⟨640, 480, 0, [], false⟩).getLast? = some GLOp.swapBuffers) := by
  intro h
  exact absurd h.1 (by simp [frameOps])

/-- C9 amended: each iteration issues the framebuffer query first, the
buffer swap second-to-last and the event poll last (swapping and polling
are steps 10 and 11 in that order, not 11 and 1); the close flag is read
and branched on at the top of the next iteration, so a flag set during
the poll stops the loop before any further iteration. -/
theorem frame_order (input : FrameInput) :
    (frameOps input).head? = some GLOp.getFramebufferSize ∧
    (frameOps input).drop 7 = [GLOp.swapBuffers, GLOp.pollEvents] ∧
    (frameOps input).length = 9 ∧
    (∀ (w : Window) (rest : List FrameInput),
      glfwWindowShouldClose w = true → runLoop w (input :: rest) = ([], w)) := by
  refine ⟨rfl, rfl, rfl, ?_⟩
  intro w rest h
  exact runLoop_closed w (input :: rest) h

/-- Witness for C9 amended: the concrete iteration order at a 640x480
frame, and the loop stopping at an already-set flag. -/
theorem frame_order_witness :
    (frameOps ⟨640, 480, 0, [], false⟩).drop 7 =
      [GLOp.swapBuffers, GLOp.pollEvents] ∧
    runLoop ⟨true⟩ [⟨640, 480, 0, [], false⟩, ⟨640, 480, 1, [], false⟩] =
      ([], ⟨true⟩) :=
  ⟨(frame_order ⟨640, 480, 0, [], false⟩).2.1,
   (frame_order ⟨640, 480, 0, [], false⟩).2.2.2 ⟨true⟩
     [⟨640, 480, 1, [], false⟩] rfl⟩

/-- C1: at framebuffer height 0 the code performs the aspect-ratio
division anyway, with divisor 0, and the frame is neither clamped nor
skipped: the iteration still executes in full and still draws. (In C
the float division width / 0.0f produces infinity; this real-number
model returns 0 for division by zero — either way, no guard exists in
the code.) -/
theorem height_zero_division_unguarded :
    ((⟨640, 0⟩ : Framebuffer).height : ℝ) = 0 ∧
    frameRatio ⟨640, 0⟩ = (640 : ℝ) / (0 : ℝ) ∧
    GLOp.drawArrays 0 3 ∈ frameOps ⟨640, 0, 0, [], false⟩ ∧
    (runLoop ⟨false⟩ [⟨640, 0, 0, [], false⟩]).1 = [⟨640, 0, 0, [], false⟩] := by
  refine ⟨by norm_num, ?_, by simp [frameOps], rfl⟩
  unfold frameRatio
  norm_num

/-- C3 counterexample: with glfwInit and glfwCreateWindow succeeding but
graphics-function loading failing, the program still enters the render
loop and exits with status 0 — the result of gladLoadGL is never read
(main.cpp line 92 discards it). -/
theorem exit_code_cex :
    (Env.mk true true false true true
      [⟨640, 480, 0, [⟨256, 0, 1, 0⟩], false⟩]).gladLoadOk = false ∧
    main (Env.mk true true false true true
      [⟨640, 480, 0, [⟨256, 0, 1, 0⟩], false⟩]) = some EXIT_SUCCESS := by
  exact ⟨rfl, rfl⟩

/-- C3 amended: the exit status is 0 exactly on clean shutdown (the loop
ended with the close flag set), and nonzero when windowing-layer
initialization or window creation fails; the function-loading result is
never checked and has no effect on the exit status. -/
theorem exit_codes (env : Env) :
    (env.glfwInitOk = false → main env = some EXIT_FAILURE) ∧
    (env.glfwInitOk = true → env.createWindowOk = false →
      main env = some EXIT_FAILURE) ∧
    (main env = some EXIT_SUCCESS ↔
      env.glfwInitOk = true ∧ env.createWindowOk = true ∧
      (runLoop ⟨false⟩ env.frames).2.shouldClose = true) ∧
    (∀ b : Bool, main { env with gladLoadOk := b } = main env) := by
  refine ⟨?_, ?_, ?_, fun b => rfl⟩
  · intro h
    simp [main, h]
  · intro h1 h2
    simp [main, h1, h2]
  · rcases env with ⟨i, c, g, s, l, frames⟩
    cases i <;> cases c <;>
      simp [main, glfwWindowShouldClose, EXIT_SUCCESS, EXIT_FAILURE]

/-- Witness for C3 amended: a failed glfwInit exits with EXIT_FAILURE,
and a clean shutdown (Escape pressed in the first frame) exits with
EXIT_SUCCESS. -/
theorem exit_codes_witness :
    main (Env.mk false true true true true []) = some EXIT_FAILURE ∧
    main (Env.mk true true true true true
      [⟨640, 480, 0, [⟨256, 0, 1, 0⟩], false⟩]) = some EXIT_SUCCESS :=
  ⟨(exit_codes (Env.mk false true true true true [])).1 rfl,
   (exit_codes (Env.mk true true true true true
      [⟨640, 480, 0, [⟨256, 0, 1, 0⟩], false⟩])).2.2.1.mpr
      ⟨rfl, rfl, rfl⟩⟩

/-- C4 counterexample: with shader compilation and linking failing, the
program does not terminate with a nonzero status: it continues into the
render loop (the first iteration executes) and exits with status 0 —
main.cpp never reads any compile or link status (its own comment says
the error checks were omitted). -/
theorem shader_failure_cex :
    (Env.mk true true true false false
      [⟨640, 480, 0, [⟨256, 0, 1, 0⟩], false⟩]).shaderCompileOk = false ∧
    (runLoop ⟨false⟩ (Env.mk true true true false false
      [⟨640, 480, 0, [⟨256, 0, 1, 0⟩], false⟩]).frames).1.length = 1 ∧
    main (Env.mk true true true false false
      [⟨640, 480, 0, [⟨256, 0, 1, 0⟩], false⟩]) = some EXIT_SUCCESS := by
  exact ⟨rfl, rfl, rfl⟩

/-- C4 amended: shader compile and link outcomes are never read: the
program's exit status is identical whatever those outcomes, and once
windowing initialization and window creation succeed it always proceeds
into the render loop, its result determined by the loop alone. -/
theorem shader_status_unchecked (env : Env) (b1 b2 : Bool) :
    main { env with shaderCompileOk := b1, linkOk := b2 } = main env ∧
    (env.glfwInitOk = true → env.createWindowOk = true →
      main { env with shaderCompileOk := b1, linkOk := b2 } =
        if (runLoop ⟨false⟩ env.frames).2.shouldClose then some EXIT_SUCCESS
        else none) := by
  refine ⟨rfl, ?_⟩
  intro h1 h2
  simp [main, h1, h2, glfwWindowShouldClose]

/-- Witness for C4 amended: with both shader stages failing in an
otherwise-successful environment whose first frame presses Escape, the
program exits with EXIT_SUCCESS. -/
theorem shader_status_unchecked_witness :
    main { Env.mk true true true true true
        [⟨640, 480, 0, [⟨256, 0, 1, 0⟩], false⟩] with
        shaderCompileOk := false, linkOk := false } =
      if (runLoop ⟨false⟩
            [⟨640, 480, 0, [⟨256, 0, 1, 0⟩], false⟩]).2.shouldClose then
        some EXIT_SUCCESS
      else none :=
  (shader_status_unchecked (Env.mk true true true true true
      [⟨640, 480, 0, [⟨256, 0, 1, 0⟩], false⟩]) false false).2 rfl rfl

/-- C5: in every executed iteration of the render loop, the matrix
uploaded to the MVP uniform is projection × model where both factors are
computed from that same iteration's framebuffer size and time: the
upload at position k of the upload sequence is determined by the k-th
executed frame input alone, so no matrix from an earlier frame is ever
reused. -/
theorem mvp_fresh_each_frame (w : Window) (inputs pre post : List FrameInput)
    (i : FrameInput) (h : (runLoop w inputs).1 = pre ++ i :: post) :
    (uploadedMVPs w inputs)[pre.length]? =
      some (frameProjection ⟨i.width, i.height⟩ * frameModel i.time) := by
  unfold uploadedMVPs
  rw [h, List.map_append, List.getElem?_append_right (by simp)]
  simp [frameMVP]

/-- Witness for C5: a one-frame run at a 640x480 frame and time 0
uploads the product of that frame's projection and model matrices. -/
theorem mvp_fresh_each_frame_witness :
    (uploadedMVPs ⟨false⟩ [⟨640, 480, 0, [], false⟩])[(0 : Nat)]? =
      some (frameProjection ⟨640, 480⟩ * frameModel 0) :=
  mvp_fresh_each_frame ⟨false⟩ [⟨640, 480, 0, [], false⟩] [] []
    ⟨640, 480, 0, [], false⟩ rfl

/-- C7: the model-matrix computation is periodic in elapsed time with
period 2π: the matrices computed at t and at t + 2π are equal (exactly,
in the real-number idealisation of float arithmetic, so in particular
within any floating-point tolerance). -/
theorem model_matrix_periodic (t : ℝ) :
    frameModel (t + 2 * Real.pi) = frameModel t := by
  unfold frameModel mat4x4_rotate_Z rotZ
  rw [Real.cos_add_two_pi, Real.sin_add_two_pi]

/-- C8: the vertex-attribute configuration agrees with the Vertex struct
layout: both attributes use stride sizeof(Vertex) = 20 bytes, the
position attribute (2 floats) is bound at offsetof(Vertex, pos) = 0 and
the color attribute (3 floats) at offsetof(Vertex, col) = 8, the two
attributes tile the struct exactly without overlap, and no call issued
by a render-loop iteration reconfigures any attribute pointer. -/
theorem attrib_layout_agrees (vp vc : Int) (input : FrameInput) :
    GLOp.vertexAttribPointer vp 2 sizeof_Vertex offsetof_pos ∈
      attribSetupOps vp vc ∧
    GLOp.vertexAttribPointer vc 3 sizeof_Vertex offsetof_col ∈
      attribSetupOps vp vc ∧
    sizeof_Vertex = 20 ∧ offsetof_pos = 0 ∧ offsetof_col = 8 ∧
    offsetof_pos + 2 * floatSize = offsetof_col ∧
    offsetof_col + 3 * floatSize = sizeof_Vertex ∧
    (∀ op ∈ frameOps input, ∀ l : Int, ∀ s st off : Nat,
      op ≠ GLOp.vertexAttribPointer l s st off) := by
  refine ⟨by simp [attribSetupOps], by simp [attribSetupOps],
    rfl, rfl, rfl, rfl, rfl, ?_⟩
  intro op hop l s st off
  simp only [frameOps, List.mem_cons, List.not_mem_nil, or_false] at hop
  rcases hop with rfl | rfl | rfl | rfl | rfl | rfl | rfl | rfl | rfl <;> simp

/-- Witness for C8: at concrete locations 0 and 1 and a 640x480 frame,
the position attribute binding is among the setup calls and the clear
call of the loop is not an attribute reconfiguration. -/
theorem attrib_layout_agrees_witness :
    GLOp.vertexAttribPointer 0 2 sizeof_Vertex offsetof_pos ∈
      attribSetupOps 0 1 ∧
    GLOp.clear ≠ GLOp.vertexAttribPointer 0 2 20 0 :=
  ⟨(attrib_layout_agrees 0 1 ⟨640, 480, 0, [], false⟩).1,
   (attrib_layout_agrees 0 1 ⟨640, 480, 0, [], false⟩).2.2.2.2.2.2.2
     GLOp.clear (by simp [frameOps]) 0 2 20 0⟩

/-- C6: for every framebuffer size with height > 0, the computed aspect
ratio is width / height as a real number (idealising float division),
and the projection built that frame is the orthographic matrix with
horizontal extent [-ratio, ratio], vertical extent [-1, 1], near plane 1
and far plane -1; when additionally width > 0, that projection maps the
extent corners (±ratio, ±1) to the clip-space corners (±1, ±1). -/
theorem aspect_and_projection (fb : Framebuffer) (hh : 0 < fb.height) :
    frameRatio fb * (fb.height : ℝ) = (fb.width : ℝ) ∧
    frameProjection fb =
      mat4x4_ortho (-(frameRatio fb)) (frameRatio fb) (-1) 1 1 (-1) ∧
    (0 < fb.width →
      Matrix.mulVec (frameProjection fb) ![frameRatio fb, 1, 0, 1] =
        ![1, 1, 0, 1] ∧
      Matrix.mulVec (frameProjection fb) ![-(frameRatio fb), -1, 0, 1] =
        ![-1, -1, 0, 1]) := by
  have hhR : (fb.height : ℝ) ≠ 0 := Int.cast_ne_zero.mpr hh.ne'
  refine ⟨div_mul_cancel₀ _ hhR, rfl, ?_⟩
  intro hw
  have hr : frameRatio fb ≠ 0 :=
    ne_of_gt (div_pos (Int.cast_pos.mpr hw) (Int.cast_pos.mpr hh))
  constructor <;>
  · funext j
    fin_cases j <;>
      simp [frameProjection, mat4x4_ortho, Matrix.mulVec,
        Matrix.dotProduct, Fin.sum_univ_four]
    all_goals try field_simp
    all_goals try ring_nf
    all_goals simp [mul_inv_cancel₀ hr]

/-- Witness for C6: at a 640x480 framebuffer the ratio times the height
equals the width, and the projection maps the corner (ratio, 1) to the
clip-space corner (1, 1). -/
theorem aspect_and_projection_witness :
    frameRatio ⟨640, 480⟩ * ((480 : ℤ) : ℝ) = ((640 : ℤ) : ℝ) ∧
    Matrix.mulVec (frameProjection ⟨640, 480⟩)
        ![frameRatio ⟨640, 480⟩, 1, 0, 1] = ![1, 1, 0, 1] :=
  ⟨(aspect_and_projection ⟨640, 480⟩ (by decide)).1,
   ((aspect_and_projection ⟨640, 480⟩ (by decide)).2.2 (by decide)).1⟩

end OpenGLTest
